import Mathlib

/-!
Shallow embedding of `magenta/interfaces/midi/midi_hub.py` and proofs about
its behavior.  Times are modelled as rationals (the Python floats are used
only for ordering and equality here), MIDI pitches and velocities as
naturals.  Python exceptions are modelled with an explicit error type and
`Except`-valued functions; Python falsiness of a float/proto field is the
test against `0`.
-/

/-- The Python exceptions that the embedded code can raise. -/
inductive PyErr
  | midiHubException
  | attributeError
  | keyError
  | assertionError
  | indexError
deriving DecidableEq

/-- Mido message kinds that `midi_hub.py` distinguishes: `note_on`,
`note_off`, and everything else. -/
inductive MsgType
  | note_on
  | note_off
  | other
deriving DecidableEq

/-- A mido message: `(type, note, velocity, channel, time)`.  `time` is `0`
when unset (mido's default). -/
structure Msg where
  type : MsgType
  note : ℕ
  velocity : ℕ
  channel : ℕ
  time : ℚ
deriving DecidableEq

/-- A `NoteSequence.Note`: protobuf numeric fields default to `0`, so an
open (not yet ended) note has `end_time = 0`. -/
structure Note where
  pitch : ℕ
  velocity : ℕ
  start_time : ℚ
  end_time : ℚ
deriving DecidableEq

/-- The parts of a `NoteSequence` proto used by `midi_hub.py`. -/
structure NoteSequence where
  qpm : ℚ
  total_time : ℚ
  notes : List Note
deriving DecidableEq

/-- From `MidiCaptor.receive` (midi_hub.py lines 280-293): raises the hub
exception when `not msg.time` (the float is falsy exactly when it is `0`,
its unset default); otherwise `put_nowait`s the message on the captor's
FIFO receive queue. -/
def MidiCaptor.receive (queue : List Msg) (msg : Msg) : Except PyErr (List Msg) :=
  if msg.time = 0 then .error .midiHubException
  else .ok (queue ++ [msg])

/-- From `MidiPlayer.run` (midi_hub.py lines 212-213): the startup loop
`while self._message_queue[0].time < time.time(): popleft()`.  The loop
condition indexes the front of the deque before checking emptiness, so an
empty (or emptied) queue raises `IndexError`. -/
def MidiPlayer.startupDiscard (queue : List Msg) (now : ℚ) : Except PyErr (List Msg) :=
  match queue with
  | [] => .error .indexError
  | m :: rest =>
      if m.time < now then MidiPlayer.startupDiscard rest now
      else .ok (m :: rest)

/-- Iteration order over a Python set of pitches.  Python's `set` yields
its elements in an unspecified order; we fix the ascending order, which is
also the only order possible in the at-most-one-element sets the monophonic
code manipulates. -/
def setElems (s : Finset ℕ) : List ℕ :=
  s.sort (· ≤ ·)

/-- The mutable state of a `MidiPlayer` relevant to its queue logic:
`_open_notes` (a Python set of pitches), `_message_queue` (a deque of
messages sorted by ascending time), and `_allow_updates`. -/
structure PlayerState where
  open_notes : Finset ℕ
  message_queue : List Msg
  allow_updates : Bool
deriving DecidableEq

/-- Stable insertion of a message after every queued message with time at
most its own. -/
def insertByTime (m : Msg) : List Msg → List Msg
  | [] => [m]
  | x :: xs => if x.time ≤ m.time then x :: insertByTime m xs else m :: x :: xs

/-- Python's stable `sorted(new_message_list, key=lambda x: x.time)`. -/
def sortByTime (l : List Msg) : List Msg :=
  l.foldl (fun acc m => insertByTime m acc) []

/-- From the `for note in sequence.notes` loop of `MidiPlayer.update_sequence`
(midi_hub.py lines 183-193).  For each note: a `note_on` is appended when
`note.start_time >= playhead`; when `note.end_time >= playhead` the code
appends a `note_off` and then evaluates
`note.start_time < self._playhead` — but `_playhead` is never assigned on
the instance (only the local `playhead` exists), so that attribute read
raises `AttributeError` and the whole call fails.  Consequently the loop
only completes when no note has `end_time >= playhead`, and then
`notes_to_close` is left empty. -/
def MidiPlayer.newMessagesOf : List Note → ℚ → Except PyErr (List Msg)
  | [], _ => .ok []
  | n :: rest, playhead =>
      let ons : List Msg :=
        if playhead ≤ n.start_time then
          [⟨.note_on, n.pitch, n.velocity, 0, n.start_time⟩]
        else []
      if playhead ≤ n.end_time then .error .attributeError
      else do
        let tail ← MidiPlayer.newMessagesOf rest playhead
        .ok (ons ++ tail)

/-- From the `for msg in self._message_queue` loop of
`MidiPlayer.update_sequence` (midi_hub.py lines 195-201): copies pending
`note_off`s for pitches in `notes_to_close` from the old queue, stopping as
soon as the set is empty; `assert msg.type == 'note_off'` fails for any
other message kind. -/
def MidiPlayer.copyCloses : List Msg → Finset ℕ → Except PyErr (List Msg)
  | [], _ => .ok []
  | m :: rest, toClose =>
      if toClose = ∅ then .ok []
      else if m.note ∈ toClose then
        if m.type = .note_off then do
          let tail ← MidiPlayer.copyCloses rest (toClose.erase m.note)
          .ok (m :: tail)
        else .error .assertionError
      else MidiPlayer.copyCloses rest toClose

/-- From `MidiPlayer.update_sequence` (midi_hub.py lines 160-204): raises
when updates are disabled; otherwise builds the new message list from the
sequence's notes (raising `AttributeError` on any note with
`end_time >= playhead`, see `MidiPlayer.newMessagesOf`), runs the
old-queue copying loop with the (necessarily empty) `notes_to_close` set,
and replaces the queue with the time-sorted result. -/
def MidiPlayer.update_sequence (st : PlayerState) (seq : NoteSequence)
    (now : ℚ) : Except PyErr PlayerState :=
  if st.allow_updates = false then .error .midiHubException
  else do
    let msgs ← MidiPlayer.newMessagesOf seq.notes now
    let closes ← MidiPlayer.copyCloses st.message_queue ∅
    .ok { st with message_queue := sortByTime (msgs ++ closes) }

/-- One observable step of the `while True` playback loop of
`MidiPlayer.run` (midi_hub.py lines 215-230).  `terminate` is the outcome
the specification claims for an empty queue with updates disabled; no
branch of the source produces it — the loop body has no `break` or
`return`, so in that situation the body completes and the loop re-runs
immediately (`spin`). -/
inductive LoopOutcome
  | dispatch (sent : Msg) (next : PlayerState)
  | wait (timeout : ℚ)
  | waitForever
  | spin
  | keyError
  | terminate
deriving DecidableEq

/-- The playback loop body of `MidiPlayer.run` (midi_hub.py lines 215-230):
with a non-empty queue, waits until the head message is due, then sends it,
updating `_open_notes` (`set.remove` raises `KeyError` when a `note_off`'s
pitch is not open); with an empty queue, waits on the condition variable
when `_allow_updates` holds, and otherwise simply re-enters the loop. -/
def MidiPlayer.loopStep (st : PlayerState) (now : ℚ) : LoopOutcome :=
  match st.message_queue with
  | m :: rest =>
      if now < m.time then .wait (m.time - now)
      else
        match m.type with
        | .note_on => .dispatch m ⟨insert m.note st.open_notes, rest, st.allow_updates⟩
        | .note_off =>
            if m.note ∈ st.open_notes then
              .dispatch m ⟨st.open_notes.erase m.note, rest, st.allow_updates⟩
            else .keyError
        | .other => .dispatch m ⟨st.open_notes, rest, st.allow_updates⟩
  | [] => if st.allow_updates then .waitForever else .spin

/-- From `MidiPlayer.stop` (midi_hub.py lines 232-246): disables updates
and replaces the queue with immediate `note_off`s (mido default velocity
64) for every open pitch, before notifying and joining. -/
def MidiPlayer.stopPrepare (st : PlayerState) (now : ℚ) : PlayerState :=
  ⟨st.open_notes,
   (setElems st.open_notes).map (fun p => ⟨.note_off, p, 64, 0, now⟩),
   false⟩

/-- From the truncation loop of `MidiCaptor.captured_sequence`
(midi_hub.py lines 387-392), run when the capture thread is still alive.
Notes are visited in order; `if note.start_time > note.end_time` deletes
that note and every later one (`del notes[i:]; break`) — note that the
comparison is against the note's *own* `end_time`, so every open note
(`end_time` unset, i.e. `0`) with a positive start is deleted; otherwise
`if not note.end_time or note.end_time > end_time` sets the note's
`end_time` to the given `end_time`. -/
def MidiCaptor.clipNotes (e : ℚ) : List Note → List Note
  | [] => []
  | n :: rest =>
      if n.end_time < n.start_time then []
      else
        { n with end_time := if n.end_time = 0 ∨ e < n.end_time then e
                             else n.end_time } :: MidiCaptor.clipNotes e rest

/-- From `MidiCaptor.captured_sequence` (midi_hub.py lines 357-398): while
the thread is alive, `end_time` is mandatory and the copied sequence is
truncated/clipped by `MidiCaptor.clipNotes` with `total_time` set to
`end_time`; after the thread has finished, `end_time` must be omitted and
the sequence is returned as is. -/
def MidiCaptor.captured_sequence (alive : Bool) (s : NoteSequence)
    (end_time : Option ℚ) : Except PyErr NoteSequence :=
  if alive then
    match end_time with
    | none => .error .midiHubException
    | some e => .ok { s with notes := MidiCaptor.clipNotes e s.notes, total_time := e }
  else
    match end_time with
    | some _ => .error .midiHubException
    | none => .ok s

/-- Outcome of handling one dequeued item in the `MidiCaptor.run` loop.
`stopped` (break on the stop signal) and `captured` (delivery to
`_capture_message`) are the outcomes the specification describes; the
source reaches neither for a real message past the start time, because it
compares against `self._stop_message`, an attribute that is never assigned
(the constructor stores the signal in `_stop_signal`), raising
`AttributeError`. -/
inductive CaptorLoopOutcome
  | skipWake
  | skipOld
  | attrError
  | stopped
  | captured (msg : Msg)
deriving DecidableEq

/-- From the per-message part of `MidiCaptor.run` (midi_hub.py lines
321-329): the wake token (`_WAKE_MESSAGE = None`, modelled as `none`) is
skipped; a message dated at or before the capture's start time is
discarded; any other message reaches `if msg == self._stop_message`, which
raises `AttributeError` as described above. -/
def MidiCaptor.loopStep (start_time : ℚ) (_stop_signal : Option Msg)
    (m : Option Msg) : CaptorLoopOutcome :=
  match m with
  | none => .skipWake
  | some msg =>
      if msg.time ≤ start_time then .skipOld
      else .attrError

/-- The captor state that `MidiCaptor.stop` can observe and update. -/
structure CaptorStopState where
  running : Bool
  stop_time : Option ℚ
deriving DecidableEq

/-- Truthiness of the expression `self.is_alive` in `MidiCaptor.stop`
(midi_hub.py line 348).  The call parentheses are missing, so the
expression denotes the bound method object — truthy in Python regardless
of whether the thread is running. -/
def isAliveAttrTruthy (_ : CaptorStopState) : Bool := true

/-- From `MidiCaptor.stop` (midi_hub.py lines 335-355): the guard
`if not self.is_alive` tests the truthiness of the bound method object, so
it never fires; the stop time is then set to `stop_time`, defaulting to
the current time, before the wake token is enqueued and the thread
joined. -/
def MidiCaptor.stop (c : CaptorStopState) (stop_time : Option ℚ) (now : ℚ) :
    Except PyErr CaptorStopState :=
  if isAliveAttrTruthy c = false then .error .midiHubException
  else .ok { c with stop_time := some (stop_time.getD now) }

/-- The two musical textures of `TextureType` (midi_hub.py lines 480-483). -/
inductive TextureType
  | monophonic
  | polyphonic
deriving DecidableEq

/-- Result of one `MidiHub._handle_message` dispatch restricted to its
passthrough section: the messages sent to the output port, the hub's
`_open_notes` set afterwards, and the Python exception, if any, raised
after those sends. -/
structure HandleResult where
  sent : List Msg
  open_notes : Finset ℕ
  err : Option PyErr
deriving DecidableEq

/-- From the passthrough section of `MidiHub._handle_message` (midi_hub.py
lines 570-592).  Polyphonic: updates the open set on note events and
forwards every message.  Monophonic: asserts `len(self._open_notes) <= 1`;
non-note messages pass through; a `note_off` for an open pitch is
forwarded and then `self._open_notes.remove(msg)` executes — the set holds
pitches (ints) while `msg` is a whole message object, never a member, so
`KeyError` is raised with the pitch still in the set; a `note_off` for a
non-open pitch is dropped; a `note_on` first pops and force-closes any
currently open pitch (synthesized `note_off`, mido default velocity 64 and
time 0) before being forwarded and recorded. -/
def MidiHub.handle_message (texture : TextureType) (passthrough : Bool)
    (open_notes : Finset ℕ) (msg : Msg) : HandleResult :=
  if passthrough = false then ⟨[], open_notes, none⟩
  else
    match texture with
    | .polyphonic =>
        match msg.type with
        | .note_on => ⟨[msg], insert msg.note open_notes, none⟩
        | .note_off => ⟨[msg], open_notes.erase msg.note, none⟩
        | .other => ⟨[msg], open_notes, none⟩
    | .monophonic =>
        if 1 < open_notes.card then ⟨[], open_notes, some .assertionError⟩
        else
          match msg.type with
          | .other => ⟨[msg], open_notes, none⟩
          | .note_off =>
              if msg.note ∈ open_notes then ⟨[msg], open_notes, some .keyError⟩
              else ⟨[], open_notes, none⟩
          | .note_on =>
              match setElems open_notes with
              | [] => ⟨[msg], insert msg.note open_notes, none⟩
              | p :: _ =>
                  ⟨[⟨.note_off, p, 64, 0, 0⟩, msg],
                   insert msg.note (open_notes.erase p), none⟩

/-- The constructor arguments with which `MidiHub.start_capture` builds
its captor (midi_hub.py lines 612-619): the texture-selected class and
`captor_class(qpm, start_time, stop_time, stop_signal)`. -/
structure CaptorArgs where
  mono : Bool
  qpm : ℚ
  start_time : ℚ
  stop_time : Option ℚ
  stop_signal : Option Msg
deriving DecidableEq

/-- From `MidiHub.start_capture` (midi_hub.py lines 594-619), modelled by
the captor it constructs and starts. -/
def MidiHub.start_capture (texture : TextureType) (qpm start_time : ℚ)
    (stop_time : Option ℚ) (stop_signal : Option Msg) : CaptorArgs :=
  ⟨(match texture with | .monophonic => true | .polyphonic => false),
   qpm, start_time, stop_time, stop_signal⟩

/-- From `MidiHub.capture_sequence` (midi_hub.py lines 621-647): raises
the hub exception when neither `stop_time` nor `stop_signal` is given;
otherwise calls `self.start_capture(start_time, qpm, stop_time,
stop_signal)` — note the first two arguments are passed in swapped order
relative to `start_capture`'s `(qpm, start_time, ...)` signature. -/
def MidiHub.capture_sequence (texture : TextureType) (qpm start_time : ℚ)
    (stop_time : Option ℚ) (stop_signal : Option Msg) : Except PyErr CaptorArgs :=
  if stop_time = none ∧ stop_signal = none then .error .midiHubException
  else .ok (MidiHub.start_capture texture start_time qpm stop_time stop_signal)

/-- C9: `receive` raises the hub exception exactly when the message's time
field is unset (`0`), and otherwise appends the message to the receive
queue. -/
theorem c9_receive_raises_iff_time_unset (queue : List Msg) (msg : Msg) :
    ((∃ e, MidiCaptor.receive queue msg = .error e) ↔ msg.time = 0) ∧
    (msg.time ≠ 0 → MidiCaptor.receive queue msg = .ok (queue ++ [msg])) := by
  constructor
  · constructor
    · rintro ⟨e, he⟩
      by_contra h
      simp [MidiCaptor.receive, h] at he
    · intro h
      exact ⟨.midiHubException, by simp [MidiCaptor.receive, h]⟩
  · intro h
    simp [MidiCaptor.receive, h]

/-- C9 witness: a message with time `2` is enqueued, and a message with
unset time raises. -/
theorem c9_receive_witness :
    MidiCaptor.receive [] ⟨.note_on, 60, 100, 0, 2⟩ =
      .ok [⟨.note_on, 60, 100, 0, 2⟩] ∧
    (∃ e, MidiCaptor.receive [] ⟨.note_on, 60, 100, 0, 0⟩ = .error e) :=
  ⟨(c9_receive_raises_iff_time_unset [] ⟨.note_on, 60, 100, 0, 2⟩).2 (by decide),
   (c9_receive_raises_iff_time_unset [] ⟨.note_on, 60, 100, 0, 0⟩).1.2 rfl⟩

/-- C10 counterexample: on an empty message queue the startup discard step
raises `IndexError` — it does access the front of an empty queue. -/
theorem c10_empty_queue_counterexample :
    MidiPlayer.startupDiscard [] 0 = .error .indexError := rfl

/-- C1: evaluation of `update_sequence` at the claim's situation.  A player
is sounding pitch 60 and its old queue still holds the `note_off` that was
going to close it at time 10; the new sequence (empty, so it neither closes
nor reopens pitch 60) is installed at playhead 5.  The resulting queue is
empty: no note-off for pitch 60 is synthesized, and the note is left open
forever — the claim's "exactly one synthesized note-off at time 10" fails.
Moreover any new sequence containing a note with `end_time >= playhead`
makes `update_sequence` raise `AttributeError` outright, because the
reconciliation guard reads the never-assigned `self._playhead`. -/
theorem c1_update_sequence_orphans_sounding_note :
    MidiPlayer.update_sequence ⟨{60}, [⟨.note_off, 60, 64, 0, 10⟩], true⟩
        ⟨120, 0, []⟩ 5 = .ok ⟨{60}, [], true⟩ ∧
    MidiPlayer.update_sequence ⟨∅, [], true⟩
        ⟨120, 10, [⟨60, 100, 6, 10⟩]⟩ 5 = .error .attributeError :=
  ⟨rfl, rfl⟩

/-- C4: the playback loop of `MidiPlayer.run` never terminates: no branch
of its body yields the `terminate` outcome, and in the exact situation the
claim says it should exit — empty queue, updates disabled — it spins.  The
queue replacement done by `stop()` is drained correctly (the open pitch is
closed), but the loop then reaches that spinning state, so `stop()`'s join
never returns. -/
theorem c4_player_loop_never_terminates :
    (∀ (st : PlayerState) (now : ℚ), MidiPlayer.loopStep st now ≠ .terminate) ∧
    MidiPlayer.loopStep ⟨∅, [], false⟩ 0 = .spin ∧
    MidiPlayer.stopPrepare ⟨{60}, [], true⟩ 5 =
      ⟨{60}, [⟨.note_off, 60, 64, 0, 5⟩], false⟩ ∧
    MidiPlayer.loopStep ⟨{60}, [⟨.note_off, 60, 64, 0, 5⟩], false⟩ 5 =
      .dispatch ⟨.note_off, 60, 64, 0, 5⟩ ⟨∅, [], false⟩ := by
  refine ⟨?_, by decide, by simp [MidiPlayer.stopPrepare, setElems], by decide⟩
  intro st now
  unfold MidiPlayer.loopStep
  rcases st with ⟨opens, queue, allow⟩
  rcases queue with _ | ⟨m, rest⟩ <;> dsimp only
  · split <;> simp
  · split
    · simp
    · rcases m with ⟨ty, note, vel, ch, t⟩
      rcases ty <;> dsimp only
      · simp
      · split <;> simp
      · simp

/-- C4 witness: the loop step at the post-`stop()` drained state is `spin`,
not `terminate`. -/
theorem c4_witness :
    MidiPlayer.loopStep ⟨∅, [], false⟩ 0 ≠ .terminate ∧
    MidiPlayer.loopStep ⟨∅, [], false⟩ 0 = .spin :=
  ⟨c4_player_loop_never_terminates.1 ⟨∅, [], false⟩ 0,
   c4_player_loop_never_terminates.2.1⟩

/-- C10 amended: the startup discard step succeeds exactly when some queued
message is not yet due; when the queue is empty, or every message is dated
in the past, it indexes the empty deque and raises `IndexError`. -/
theorem c10_startup_discard_safe_iff_some_message_due (queue : List Msg) (now : ℚ) :
    (∃ m ∈ queue, now ≤ m.time) ↔ ∃ q, MidiPlayer.startupDiscard queue now = .ok q := by
  induction queue with
  | nil =>
      simp [MidiPlayer.startupDiscard]
  | cons m rest ih =>
      by_cases h : m.time < now
      · have hm : ¬ now ≤ m.time := not_le.mpr h
        simp [MidiPlayer.startupDiscard, h, hm, ih]
      · simp [MidiPlayer.startupDiscard, h]
        exact Or.inl (not_lt.mp h)

/-- C2: evaluation of `captured_sequence` on a running capture.  An open
note (unset `end_time`) starting at `1/2` is *deleted* by the truncation
loop — its start exceeds its own unset end — instead of being closed at
`end_time = 3/2` as the claim requires; the claim's own example survives
only because its open note starts exactly at `0`. -/
theorem c2_captured_sequence_deletes_open_note :
    MidiCaptor.captured_sequence true ⟨120, 0, [⟨60, 100, 1/2, 0⟩]⟩ (some (3/2)) =
      .ok ⟨120, 3/2, []⟩ ∧
    MidiCaptor.captured_sequence true ⟨120, 0, [⟨60, 100, 0, 0⟩]⟩ (some (3/2)) =
      .ok ⟨120, 3/2, [⟨60, 100, 0, 3/2⟩]⟩ := by
  constructor <;>
    norm_num [MidiCaptor.captured_sequence, MidiCaptor.clipNotes]

/-- C3: under monophonic passthrough, a `note_off` for the currently
sounding pitch is forwarded to the output, but the subsequent
`self._open_notes.remove(msg)` raises `KeyError` (the set holds pitches,
not message objects) and pitch 60 stays in the open set — it is not
removed as the claim states. -/
theorem c3_note_off_keyerror_leaves_pitch_open :
    MidiHub.handle_message .monophonic true {60} ⟨.note_off, 60, 64, 0, 2⟩ =
      ⟨[⟨.note_off, 60, 64, 0, 2⟩], {60}, some .keyError⟩ := by
  decide

/-- C5: `capture_sequence` passes its first two arguments to
`start_capture` in swapped order, so with `qpm = 120` and
`start_time = 1` the captor it builds has `qpm = 1` and
`start_time = 120` — not the captor `start_capture 120 1` builds; the
guard requiring one of `stop_time`/`stop_signal` does hold. -/
theorem c5_capture_sequence_swaps_qpm_start_time :
    MidiHub.capture_sequence .monophonic 120 1 (some 5) none =
      .ok ⟨true, 1, 120, some 5, none⟩ ∧
    MidiHub.start_capture .monophonic 120 1 (some 5) none =
      ⟨true, 120, 1, some 5, none⟩ ∧
    MidiHub.capture_sequence .monophonic 120 1 none none =
      .error .midiHubException :=
  ⟨rfl, rfl, rfl⟩

/-- C6: under monophonic passthrough, every `_handle_message` dispatch
preserves `|open_notes| ≤ 1` (including the dispatches that raise, which
leave the set untouched), and feeding `note_on 60` then `note_on 64` into
an idle hub outputs `note_on 60, note_off 60, note_on 64` in that order,
leaving `{64}` open. -/
theorem c6_monophonic_open_set_invariant :
    (∀ (s : Finset ℕ) (msg : Msg), s.card ≤ 1 →
        (MidiHub.handle_message .monophonic true s msg).open_notes.card ≤ 1) ∧
    (MidiHub.handle_message .monophonic true ∅ ⟨.note_on, 60, 100, 0, 1⟩).sent ++
      (MidiHub.handle_message .monophonic true {60} ⟨.note_on, 64, 100, 0, 2⟩).sent =
      [⟨.note_on, 60, 100, 0, 1⟩, ⟨.note_off, 60, 64, 0, 0⟩,
       ⟨.note_on, 64, 100, 0, 2⟩] ∧
    (MidiHub.handle_message .monophonic true ∅ ⟨.note_on, 60, 100, 0, 1⟩).open_notes
      = {60} ∧
    (MidiHub.handle_message .monophonic true {60} ⟨.note_on, 64, 100, 0, 2⟩).open_notes
      = {64} := by
  have h0 : setElems (∅ : Finset ℕ) = [] := by
    simp [setElems]
  have h60 : setElems ({60} : Finset ℕ) = [60] := by
    simp [setElems]
  refine ⟨?_, ?_, ?_, ?_⟩
  · intro s msg hs
    rcases msg with ⟨ty, note, vel, ch, t⟩
    rcases ty <;>
      simp only [MidiHub.handle_message, Bool.true_eq_false, if_false,
        Nat.not_lt.mpr hs, if_neg (by omega : ¬ 1 < s.card)]
    · rcases he : setElems s with _ | ⟨p, rest⟩
      · have hempty : s = ∅ := by
          have := Finset.length_sort (α := ℕ) (· ≤ ·) (s := s)
          rw [setElems] at he
          rw [he] at this
          exact Finset.card_eq_zero.mp this.symm
        subst hempty
        simp
      · have hp : p ∈ s := by
          have : p ∈ setElems s := he ▸ List.mem_cons_self p rest
          exact (Finset.mem_sort (α := ℕ) (· ≤ ·)).mp this
        have hcard : (s.erase p).card = 0 := by
          have h1 : 1 ≤ s.card := Finset.card_pos.mpr ⟨p, hp⟩
          have := Finset.card_erase_of_mem hp
          omega
        calc (insert note (s.erase p)).card ≤ (s.erase p).card + 1 :=
              Finset.card_insert_le note (s.erase p)
          _ ≤ 1 := by omega
    · split <;> simp [hs]
    · exact hs
  · simp [MidiHub.handle_message, h0, h60]
  · simp [MidiHub.handle_message, h0]
  · simp [MidiHub.handle_message, h60]

/-- C6 witness: the invariant instantiated at the concrete idle hub and a
`note_on 60` dispatch. -/
theorem c6_witness :
    (MidiHub.handle_message .monophonic true ∅ ⟨.note_on, 60, 100, 0, 1⟩).open_notes.card ≤ 1 :=
  c6_monophonic_open_set_invariant.1 ∅ ⟨.note_on, 60, 100, 0, 1⟩ (by decide)

/-- C7: `MidiCaptor.stop` never raises the hub exception — the guard
`if not self.is_alive` tests a bound method object, which is always
truthy — so stopping a captor that is not running succeeds (setting the
stop time) instead of failing as the claim states; for a running captor
the stop time is set as described. -/
theorem c7_stop_never_raises :
    (∀ (c : CaptorStopState) (stop_time : Option ℚ) (now : ℚ),
        MidiCaptor.stop c stop_time now ≠ .error .midiHubException) ∧
    MidiCaptor.stop ⟨false, none⟩ none 7 = .ok ⟨false, some 7⟩ ∧
    MidiCaptor.stop ⟨true, none⟩ (some 3) 7 = .ok ⟨true, some 3⟩ := by
  refine ⟨?_, rfl, rfl⟩
  intro c stop_time now
  simp [MidiCaptor.stop, isAliveAttrTruthy]

/-- C7 witness: stopping a not-running captor raises nothing and records
the default stop time. -/
theorem c7_witness :
    MidiCaptor.stop ⟨false, none⟩ none 7 ≠ .error .midiHubException ∧
    MidiCaptor.stop ⟨false, none⟩ none 7 = .ok ⟨false, some 7⟩ :=
  ⟨c7_stop_never_raises.1 ⟨false, none⟩ none 7, c7_stop_never_raises.2.1⟩

/-- C8: in the captor run loop, messages at or before the start time are
discarded, but every later message makes the loop raise `AttributeError`
at `msg == self._stop_message` (never-assigned attribute), so no dequeued
message ever ends capture as a stop-signal match — the `stopped` outcome
is unreachable. -/
theorem c8_captor_loop_raises_instead_of_stopping :
    (∀ (start_time : ℚ) (sig : Option Msg) (m : Msg), m.time ≤ start_time →
        MidiCaptor.loopStep start_time sig (some m) = .skipOld) ∧
    (∀ (start_time : ℚ) (sig : Option Msg) (m : Msg), start_time < m.time →
        MidiCaptor.loopStep start_time sig (some m) = .attrError) ∧
    (∀ (start_time : ℚ) (sig : Option Msg) (om : Option Msg),
        MidiCaptor.loopStep start_time sig om ≠ .stopped) := by
  refine ⟨?_, ?_, ?_⟩
  · intro st sig m h
    simp [MidiCaptor.loopStep, h]
  · intro st sig m h
    simp [MidiCaptor.loopStep, not_le.mpr h]
  · intro st sig om
    rcases om with _ | m
    · simp [MidiCaptor.loopStep]
    · simp only [MidiCaptor.loopStep]
      split <;> simp

/-- C8 witness: a message dated at the start time is discarded, and a
message whose time-erased shape equals the configured stop signal but is
dated after the start time raises `AttributeError` instead of stopping
capture. -/
theorem c8_witness :
    MidiCaptor.loopStep 1 (some ⟨.note_on, 60, 100, 0, 9⟩)
      (some ⟨.note_on, 60, 100, 0, 1⟩) = .skipOld ∧
    MidiCaptor.loopStep 1 (some ⟨.note_on, 60, 100, 0, 9⟩)
      (some ⟨.note_on, 60, 100, 0, 2⟩) = .attrError :=
  ⟨c8_captor_loop_raises_instead_of_stopping.1 1 (some ⟨.note_on, 60, 100, 0, 9⟩)
      ⟨.note_on, 60, 100, 0, 1⟩ (by norm_num),
   c8_captor_loop_raises_instead_of_stopping.2.1 1 (some ⟨.note_on, 60, 100, 0, 9⟩)
      ⟨.note_on, 60, 100, 0, 2⟩ (by norm_num)⟩

/-- C10 witness: on a queue whose single message is dated at time 5, the
startup discard step at time 0 succeeds. -/
theorem c10_witness :
    ∃ q, MidiPlayer.startupDiscard [⟨.note_on, 60, 100, 0, 5⟩] 0 = .ok q :=
  (c10_startup_discard_safe_iff_some_message_due
      [⟨.note_on, 60, 100, 0, 5⟩] 0).mp
    ⟨⟨.note_on, 60, 100, 0, 5⟩, List.mem_singleton.mpr rfl, by norm_num⟩
